import Mathlib

/-!
# Gliding character: state machine and ground probe

Shallow embedding of `Source/CGliding/Gliding/CGlidingCharacter.{h,cpp}`.

Modelling conventions.

* `float` values are finite and are represented by exact rationals. The only
  comparisons the code makes (`> 20.0f`, `!= 0.0f`) are against constants that
  are exactly representable, so on finite values they agree with the rational
  comparison. NaN, infinities and rounding of arithmetic are outside the model.
* The host engine is an explicit parameter of every function that calls it:
  the answer of `IsFalling()`, the world location of `GroundBoxComponent`, the
  line trace of the world and the interpolation routine.
* `MovementMode` holds the last value passed to `SetMovementMode`; the engine
  changing the mode on its own is outside the model, and so is `Super::Tick`.
* `LineTraces` is a ghost field: the list of `(Start, End)` pairs of the calls
  to `LineTraceSingleByChannel`, oldest first.
-/

namespace CGliding

/-- Engine vector type `FVector`, three components. -/
structure FVector where
  X : ℚ
  Y : ℚ
  Z : ℚ
deriving DecidableEq, Repr

namespace FVector

/-- Engine constant `FVector::DownVector`, the vector `(0, 0, -1)`. -/
def DownVector : FVector := ⟨0, 0, -1⟩

/-- Engine `operator+(const FVector&)`: componentwise sum. -/
instance : Add FVector := ⟨fun a b => ⟨a.X + b.X, a.Y + b.Y, a.Z + b.Z⟩⟩

/-- Engine `operator-(const FVector&)`: componentwise difference. -/
instance : Sub FVector := ⟨fun a b => ⟨a.X - b.X, a.Y - b.Y, a.Z - b.Z⟩⟩

/-- Engine `operator*(const FVector&)`: componentwise product. -/
instance : Mul FVector := ⟨fun a b => ⟨a.X * b.X, a.Y * b.Y, a.Z * b.Z⟩⟩

/-- Engine `operator*(float)`: every component times the scalar. -/
instance : HMul FVector ℚ FVector := ⟨fun a k => ⟨a.X * k, a.Y * k, a.Z * k⟩⟩

/-- Engine `FVector::SizeSquared`: sum of the squared components. -/
def SizeSquared (a : FVector) : ℚ := a.X * a.X + a.Y * a.Y + a.Z * a.Z

end FVector

/-- The two values of `EMovementMode` the character passes to `SetMovementMode`. -/
inductive EMovementMode where
  | MOVE_Walking
  | MOVE_Flying
deriving DecidableEq, Repr

/-- The part of the engine's `FHitResult` that matters here: whether the trace
hit something, and the `Distance` field the character reads. -/
structure FHitResult where
  bBlockingHit : Bool
  Distance : ℚ
deriving DecidableEq, Repr

/-- The world seen through `LineTraceSingleByChannel(Result, Start, End, ...)`:
the hit result left in `Result` for a trace from `Start` to `End`. -/
abbrev LineTrace := FVector → FVector → FHitResult

/-- Signature of `FMath::VInterpTo(Current, Target, DeltaTime, InterpSpeed)`. -/
abbrev Interp := FVector → FVector → ℚ → ℚ → FVector

/-- State of an `ACGlidingCharacter`: the gliding fields of the header, the
movement mode and location owned by the host, the host's jump flag, and the
ghost log of line traces. -/
structure ACGlidingCharacter where
  DownwardForce : ℚ
  DistanceToGround : ℚ
  bCanGlide : Bool
  bIsGliding : Bool
  MovementMode : EMovementMode
  ActorLocation : FVector
  bPressedJump : Bool
  LineTraces : List (FVector × FVector)
deriving DecidableEq, Repr

/-- A freshly constructed character at `Location`: the member initialisers of
the header (`DownwardForce = 50`, `DistanceToGround = 0`, `bCanGlide = true`,
`bIsGliding = false`), walking, with no trace issued yet. -/
def initial (Location : FVector) : ACGlidingCharacter :=
  { DownwardForce := 50
    DistanceToGround := 0
    bCanGlide := true
    bIsGliding := false
    MovementMode := EMovementMode.MOVE_Walking
    ActorLocation := Location
    bPressedJump := false
    LineTraces := [] }

/-- Method `ACGlidingCharacter::StartGlide`. -/
def StartGlide (c : ACGlidingCharacter) : ACGlidingCharacter :=
  { c with MovementMode := EMovementMode.MOVE_Flying, bIsGliding := true }

/-- Method `ACGlidingCharacter::StopGlide`. -/
def StopGlide (c : ACGlidingCharacter) : ACGlidingCharacter :=
  { c with MovementMode := EMovementMode.MOVE_Walking, bIsGliding := false, bCanGlide := true }

/-- Method `ACGlidingCharacter::ToggleGlide`. -/
def ToggleGlide (c : ACGlidingCharacter) : ACGlidingCharacter :=
  if c.bCanGlide && !c.bIsGliding then StartGlide c else StopGlide c

/-- Host `ACharacter::Jump`: raises the jump flag. -/
def Jump (c : ACGlidingCharacter) : ACGlidingCharacter :=
  { c with bPressedJump := true }

/-- Host `ACharacter::StopJumping`: clears the jump flag. -/
def StopJumping (c : ACGlidingCharacter) : ACGlidingCharacter :=
  { c with bPressedJump := false }

/-- Method `ACGlidingCharacter::StartJump`; `IsFalling` is the answer of
`GetCharacterMovement()->IsFalling()`. -/
def StartJump (IsFalling : Bool) (c : ACGlidingCharacter) : ACGlidingCharacter :=
  if IsFalling then ToggleGlide c else Jump c

/-- Method `ACGlidingCharacter::StopJump`. -/
def StopJump (c : ACGlidingCharacter) : ACGlidingCharacter :=
  StopJumping c

/-- The local `EndOffset` of `CalculateDistanceToGround`:
`Position * FVector::DownVector * 2000.0f`. -/
def EndOffset (Position : FVector) : FVector :=
  Position * FVector.DownVector * (2000 : ℚ)

/-- Method `ACGlidingCharacter::CalculateDistanceToGround`; `Position` is
`GroundBoxComponent->GetComponentLocation()`. The return value of the trace is
not looked at: `DistanceToGround` takes `Result.Distance` whatever it is. -/
def CalculateDistanceToGround (Position : FVector) (world : LineTrace)
    (c : ACGlidingCharacter) : ACGlidingCharacter :=
  let Result := world Position (EndOffset Position)
  { c with
    DistanceToGround := Result.Distance
    LineTraces := c.LineTraces ++ [(Position, EndOffset Position)] }

/-- Method `ACGlidingCharacter::UpdateDistanceToGround`. -/
def UpdateDistanceToGround (Position : FVector) (world : LineTrace)
    (c : ACGlidingCharacter) : ACGlidingCharacter :=
  let c1 := CalculateDistanceToGround Position world c
  if c1.DistanceToGround > 20 then { c1 with bCanGlide := true } else StopGlide c1

/-- The local `TargetLocation` of `UpdateGlidingPosition`:
`ActorLocation - FVector::DownVector * -DownwardForce`. -/
def TargetLocation (c : ACGlidingCharacter) : FVector :=
  let FallLocation := FVector.DownVector * (-c.DownwardForce)
  c.ActorLocation - FallLocation

/-- Method `ACGlidingCharacter::UpdateGlidingPosition`; `VInterpTo` is the engine's
interpolation routine. -/
def UpdateGlidingPosition (VInterpTo : Interp) (DeltaTime : ℚ)
    (c : ACGlidingCharacter) : ACGlidingCharacter :=
  let NewLocation :=
    if DeltaTime ≠ 0 then VInterpTo c.ActorLocation (TargetLocation c) DeltaTime 5
    else c.ActorLocation
  { c with ActorLocation := NewLocation }

/-- Method `ACGlidingCharacter::Tick`; `Super::Tick` is left to the host. -/
def Tick (Position : FVector) (world : LineTrace) (VInterpTo : Interp) (DeltaSeconds : ℚ)
    (c : ACGlidingCharacter) : ACGlidingCharacter :=
  if c.bIsGliding then
    UpdateGlidingPosition VInterpTo DeltaSeconds (UpdateDistanceToGround Position world c)
  else c

/-- One call into the character, with the host's answers for that call. -/
inductive Op where
  | ToggleGlide
  | StartGlide
  | StopGlide
  | StartJump (IsFalling : Bool)
  | StopJump
  | UpdateDistanceToGround (Position : FVector) (world : LineTrace)
  | Tick (Position : FVector) (world : LineTrace) (VInterpTo : Interp) (DeltaSeconds : ℚ)

/-- Effect of one call. -/
def step (c : ACGlidingCharacter) : Op → ACGlidingCharacter
  | Op.ToggleGlide => ToggleGlide c
  | Op.StartGlide => StartGlide c
  | Op.StopGlide => StopGlide c
  | Op.StartJump f => StartJump f c
  | Op.StopJump => StopJump c
  | Op.UpdateDistanceToGround p w => UpdateDistanceToGround p w c
  | Op.Tick p w i dt => Tick p w i dt c

/-- Effect of a finite sequence of calls, first call first. -/
def run (c : ACGlidingCharacter) (ops : List Op) : ACGlidingCharacter :=
  ops.foldl step c

/-- The mode agrees with the gliding flag: gliding means flying, not gliding
means walking. -/
def ModeAgrees (c : ACGlidingCharacter) : Prop :=
  (c.bIsGliding = true → c.MovementMode = EMovementMode.MOVE_Flying) ∧
  (c.bIsGliding = false → c.MovementMode = EMovementMode.MOVE_Walking)

instance (c : ACGlidingCharacter) : Decidable (ModeAgrees c) := by
  unfold ModeAgrees; infer_instance

/-- Clamp of a scalar to `[lo, hi]`, as `FMath::Clamp`. -/
def Clamp (x lo hi : ℚ) : ℚ :=
  if x < lo then lo else if x < hi then x else hi

/-- The host engine's `FMath::VInterpTo`, which is not part of this repository:
jump to the target when the speed is not positive or the remaining distance is
within the engine's small-number tolerance, otherwise move by the remaining
distance times `DeltaTime * InterpSpeed` clamped to `[0, 1]`. It is the routine
the character passes its location and target to in `UpdateGlidingPosition`. -/
def VInterpTo : Interp := fun Current Target DeltaTime InterpSpeed =>
  if InterpSpeed ≤ 0 then Target
  else
    let Dist := Target - Current
    if Dist.SizeSquared < 1 / 10000 then Target
    else Current + Dist * Clamp (DeltaTime * InterpSpeed) 0 1

/-- A world in which every trace comes back empty: no blocking hit and the
zeroed `Distance` of a default-constructed `FHitResult`. -/
def emptyWorld : LineTrace := fun _ _ => { bBlockingHit := false, Distance := 0 }

/-- A world in which every trace reports a hit at distance `d`. -/
def flatWorld (d : ℚ) : LineTrace := fun _ _ => { bBlockingHit := true, Distance := d }

/-- The target as the specification writes it:
`position - downVector * downwardForce`. -/
def SpecTarget (c : ACGlidingCharacter) : FVector :=
  c.ActorLocation - FVector.DownVector * c.DownwardForce

/-- A character on the ground whose `bCanGlide` is cleared. -/
def unarmed : ACGlidingCharacter :=
  { initial ⟨0, 0, 0⟩ with bCanGlide := false }

/-- A gliding character: the initial one after `StartGlide`. -/
def glider : ACGlidingCharacter :=
  StartGlide (initial ⟨0, 0, 1000⟩)

/-- A character at the origin whose `DownwardForce` is 1/256, so that the
squared distance to its target is under the interpolation tolerance. -/
def featherweight : ACGlidingCharacter :=
  { initial ⟨0, 0, 0⟩ with DownwardForce := 1 / 256 }

/-! ## Vector arithmetic -/

theorem FVector.add_def (a b : FVector) :
    a + b = ⟨a.X + b.X, a.Y + b.Y, a.Z + b.Z⟩ := rfl

theorem FVector.sub_def (a b : FVector) :
    a - b = ⟨a.X - b.X, a.Y - b.Y, a.Z - b.Z⟩ := rfl

theorem FVector.mul_def (a b : FVector) :
    a * b = ⟨a.X * b.X, a.Y * b.Y, a.Z * b.Z⟩ := rfl

theorem FVector.smul_def (a : FVector) (k : ℚ) :
    a * k = ⟨a.X * k, a.Y * k, a.Z * k⟩ := rfl

/-- The trace end computed by the code: both horizontal components are zeroed
and the height is multiplied by `-2000`. -/
theorem EndOffset_eq (p : FVector) : EndOffset p = ⟨0, 0, -(p.Z * 2000)⟩ := by
  simp [EndOffset, FVector.DownVector, FVector.mul_def, FVector.smul_def]

/-- The interpolation target computed by the code lies `DownwardForce` below
the actor. -/
theorem TargetLocation_eq (c : ACGlidingCharacter) :
    TargetLocation c = ⟨c.ActorLocation.X, c.ActorLocation.Y, c.ActorLocation.Z - c.DownwardForce⟩ := by
  simp [TargetLocation, FVector.DownVector, FVector.sub_def, FVector.smul_def]

/-! ## Frame lemmas -/

theorem UpdateGlidingPosition_flags (i : Interp) (dt : ℚ) (c : ACGlidingCharacter) :
    (UpdateGlidingPosition i dt c).bIsGliding = c.bIsGliding ∧
    (UpdateGlidingPosition i dt c).bCanGlide = c.bCanGlide ∧
    (UpdateGlidingPosition i dt c).MovementMode = c.MovementMode := by
  simp [UpdateGlidingPosition]

theorem UpdateDistanceToGround_far (p : FVector) (w : LineTrace) (c : ACGlidingCharacter)
    (h : 20 < (w p (EndOffset p)).Distance) :
    UpdateDistanceToGround p w c =
      { CalculateDistanceToGround p w c with bCanGlide := true } := by
  simp [UpdateDistanceToGround, CalculateDistanceToGround, h]

theorem UpdateDistanceToGround_near (p : FVector) (w : LineTrace) (c : ACGlidingCharacter)
    (h : (w p (EndOffset p)).Distance ≤ 20) :
    UpdateDistanceToGround p w c = StopGlide (CalculateDistanceToGround p w c) := by
  have h2 : ¬ 20 < (w p (EndOffset p)).Distance := not_lt.mpr h
  simp [UpdateDistanceToGround, CalculateDistanceToGround, h2]

/-! ## Invariants of one call -/

theorem UpdateDistanceToGround_ModeAgrees (p : FVector) (w : LineTrace)
    (c : ACGlidingCharacter) (h : ModeAgrees c) :
    ModeAgrees (UpdateDistanceToGround p w c) := by
  rcases lt_or_le 20 (w p (EndOffset p)).Distance with hd | hd
  · rw [UpdateDistanceToGround_far p w c hd]
    exact h
  · rw [UpdateDistanceToGround_near p w c hd]
    simp [ModeAgrees, StopGlide]

theorem UpdateDistanceToGround_bCanGlide (p : FVector) (w : LineTrace)
    (c : ACGlidingCharacter) : (UpdateDistanceToGround p w c).bCanGlide = true := by
  rcases lt_or_le 20 (w p (EndOffset p)).Distance with hd | hd
  · rw [UpdateDistanceToGround_far p w c hd]
  · rw [UpdateDistanceToGround_near p w c hd]
    rfl

theorem ToggleGlide_ModeAgrees (c : ACGlidingCharacter) : ModeAgrees (ToggleGlide c) := by
  unfold ToggleGlide
  split <;> simp [ModeAgrees, StartGlide, StopGlide]

theorem ToggleGlide_bCanGlide (c : ACGlidingCharacter) (h : c.bCanGlide = true) :
    (ToggleGlide c).bCanGlide = true := by
  unfold ToggleGlide
  split <;> simp [StartGlide, StopGlide, h]

theorem step_ModeAgrees (c : ACGlidingCharacter) (op : Op) (h : ModeAgrees c) :
    ModeAgrees (step c op) := by
  cases op with
  | ToggleGlide => exact ToggleGlide_ModeAgrees c
  | StartGlide => simp [step, ModeAgrees, StartGlide]
  | StopGlide => simp [step, ModeAgrees, StopGlide]
  | StartJump f =>
    cases f
    · exact h
    · exact ToggleGlide_ModeAgrees c
  | StopJump => exact h
  | UpdateDistanceToGround p w => exact UpdateDistanceToGround_ModeAgrees p w c h
  | Tick p w i dt =>
    show ModeAgrees (Tick p w i dt c)
    unfold Tick
    split
    · have hu := UpdateDistanceToGround_ModeAgrees p w c h
      have hf := UpdateGlidingPosition_flags i dt (UpdateDistanceToGround p w c)
      unfold ModeAgrees at hu ⊢
      rw [hf.1, hf.2.2]
      exact hu
    · exact h

theorem step_bCanGlide (c : ACGlidingCharacter) (op : Op) (h : c.bCanGlide = true) :
    (step c op).bCanGlide = true := by
  cases op with
  | ToggleGlide => exact ToggleGlide_bCanGlide c h
  | StartGlide => exact h
  | StopGlide => rfl
  | StartJump f =>
    cases f
    · exact h
    · exact ToggleGlide_bCanGlide c h
  | StopJump => exact h
  | UpdateDistanceToGround p w => exact UpdateDistanceToGround_bCanGlide p w c
  | Tick p w i dt =>
    show (Tick p w i dt c).bCanGlide = true
    unfold Tick
    split
    · rw [(UpdateGlidingPosition_flags i dt (UpdateDistanceToGround p w c)).2.1]
      exact UpdateDistanceToGround_bCanGlide p w c
    · exact h

theorem run_ModeAgrees (ops : List Op) (c : ACGlidingCharacter) (h : ModeAgrees c) :
    ModeAgrees (run c ops) := by
  induction ops generalizing c with
  | nil => exact h
  | cons op rest ih => exact ih (step c op) (step_ModeAgrees c op h)

theorem run_bCanGlide (ops : List Op) (c : ACGlidingCharacter) (h : c.bCanGlide = true) :
    (run c ops).bCanGlide = true := by
  induction ops generalizing c with
  | nil => exact h
  | cons op rest ih => exact ih (step c op) (step_bCanGlide c op h)

/-! ## The glide step with the engine interpolation -/

/-- The remaining distance handed to the interpolation is straight down by
`DownwardForce`. -/
theorem TargetLocation_sub (c : ACGlidingCharacter) :
    TargetLocation c - c.ActorLocation = ⟨0, 0, -c.DownwardForce⟩ := by
  rw [TargetLocation_eq]
  simp [FVector.sub_def]

theorem Clamp_inside (x : ℚ) (h0 : 0 < x) (h1 : x < 1) : Clamp x 0 1 = x := by
  simp [Clamp, not_lt.mpr (le_of_lt h0), h1]

theorem Clamp_above (x : ℚ) (h1 : 1 ≤ x) : Clamp x 0 1 = 1 := by
  have h0 : ¬ x < 0 := not_lt.mpr (le_trans zero_le_one h1)
  simp [Clamp, h0, not_lt.mpr h1]

/-- The glide step with the engine interpolation, for a nonzero delta time:
a jump to the target when the squared force is under the tolerance, otherwise
a move by the clamped fraction of the way. -/
theorem glide_step_eq (c : ACGlidingCharacter) (dt : ℚ) (hdt : dt ≠ 0) :
    (UpdateGlidingPosition VInterpTo dt c).ActorLocation =
      if c.DownwardForce * c.DownwardForce < 1 / 10000 then TargetLocation c
      else c.ActorLocation + (TargetLocation c - c.ActorLocation) * Clamp (dt * 5) 0 1 := by
  have hsz : (TargetLocation c - c.ActorLocation).SizeSquared
      = c.DownwardForce * c.DownwardForce := by
    rw [TargetLocation_sub]
    simp [FVector.SizeSquared]
  simp only [UpdateGlidingPosition, VInterpTo, hsz]
  simp [hdt]

theorem glide_step_small_force (c : ACGlidingCharacter) (dt : ℚ) (hdt : dt ≠ 0)
    (hF : c.DownwardForce * c.DownwardForce < 1 / 10000) :
    (UpdateGlidingPosition VInterpTo dt c).ActorLocation = TargetLocation c := by
  rw [glide_step_eq c dt hdt, if_pos hF]

theorem glide_step_fraction (c : ACGlidingCharacter) (dt : ℚ) (hdt : dt ≠ 0)
    (hF : 1 / 10000 ≤ c.DownwardForce * c.DownwardForce) :
    (UpdateGlidingPosition VInterpTo dt c).ActorLocation
      = c.ActorLocation + (TargetLocation c - c.ActorLocation) * Clamp (dt * 5) 0 1 := by
  rw [glide_step_eq c dt hdt, if_neg (not_lt.mpr hF)]

/-- Moving the whole remaining distance lands on the target. -/
theorem full_step_eq (c : ACGlidingCharacter) :
    c.ActorLocation + (TargetLocation c - c.ActorLocation) * (1 : ℚ) = TargetLocation c := by
  rw [TargetLocation_sub, TargetLocation_eq]
  simp [FVector.add_def, FVector.smul_def]
  ring

/-- Height after moving the fraction `t` of the remaining distance. -/
theorem part_step_eq (c : ACGlidingCharacter) (t : ℚ) :
    c.ActorLocation + (TargetLocation c - c.ActorLocation) * t
      = ⟨c.ActorLocation.X, c.ActorLocation.Y, c.ActorLocation.Z - c.DownwardForce * t⟩ := by
  rw [TargetLocation_sub]
  simp [FVector.add_def, FVector.smul_def]
  ring

/-! ## Claims -/

/-- C1: in every state reached from the initial state by a finite sequence of
ToggleGlide, StartGlide, StopGlide, StartJump, StopJump, UpdateDistanceToGround
and Tick calls, with arbitrary host answers, gliding implies mode Flying and
not gliding implies mode Walking. -/
theorem C1_mode_agrees_on_reachable (Location : FVector) (ops : List Op) :
    ((run (initial Location) ops).bIsGliding = true →
      (run (initial Location) ops).MovementMode = EMovementMode.MOVE_Flying) ∧
    ((run (initial Location) ops).bIsGliding = false →
      (run (initial Location) ops).MovementMode = EMovementMode.MOVE_Walking) := by
  have h0 : ModeAgrees (initial Location) := by simp [ModeAgrees, initial]
  exact run_ModeAgrees ops (initial Location) h0

/-- C2, as stated, fails: on a walking, non-gliding character whose bCanGlide
is false, two ToggleGlide calls in a row end in mode Flying, not in the
original mode Walking. -/
theorem C2_counterexample_unarmed :
    unarmed.MovementMode = EMovementMode.MOVE_Walking ∧
    (ToggleGlide (ToggleGlide unarmed)).MovementMode = EMovementMode.MOVE_Flying ∧
    (ToggleGlide (ToggleGlide unarmed)).MovementMode ≠ unarmed.MovementMode := by
  simp [unarmed, initial, ToggleGlide, StartGlide, StopGlide]

/-- C2, amended: when the mode agrees with the gliding flag and bCanGlide or
bIsGliding is true, two ToggleGlide calls in a row leave the movement mode as
it was before the first call. -/
theorem C2_toggle_twice_restores_mode (c : ACGlidingCharacter) (hmode : ModeAgrees c)
    (harmed : c.bCanGlide = true ∨ c.bIsGliding = true) :
    (ToggleGlide (ToggleGlide c)).MovementMode = c.MovementMode := by
  obtain ⟨hfly, hwalk⟩ := hmode
  cases hg : c.bIsGliding with
  | true =>
    rw [hfly hg]
    simp [ToggleGlide, StartGlide, StopGlide, hg]
  | false =>
    have hc : c.bCanGlide = true := by
      rcases harmed with h | h
      · exact h
      · rw [hg] at h; cases h
    rw [hwalk hg]
    simp [ToggleGlide, StartGlide, StopGlide, hg, hc]

/-- C2, amended, at the initial state. -/
theorem C2_toggle_twice_restores_mode_witness :
    ModeAgrees (initial ⟨0, 0, 0⟩) ∧
    ((initial ⟨0, 0, 0⟩).bCanGlide = true ∨ (initial ⟨0, 0, 0⟩).bIsGliding = true) ∧
    (ToggleGlide (ToggleGlide (initial ⟨0, 0, 0⟩))).MovementMode
      = (initial ⟨0, 0, 0⟩).MovementMode :=
  ⟨by simp [ModeAgrees, initial], Or.inl rfl,
    C2_toggle_twice_restores_mode (initial ⟨0, 0, 0⟩) (by simp [ModeAgrees, initial])
      (Or.inl rfl)⟩

/-- C3: UpdateDistanceToGround stores the probed distance d in DistanceToGround;
if d > 20 then bCanGlide is true afterwards and bIsGliding and the mode are
unchanged; if d <= 20 then bIsGliding is false, the mode is Walking and
bCanGlide is true. -/
theorem C3_update_distance_to_ground (Position : FVector) (world : LineTrace)
    (c : ACGlidingCharacter) :
    (UpdateDistanceToGround Position world c).DistanceToGround
      = (world Position (EndOffset Position)).Distance ∧
    (20 < (world Position (EndOffset Position)).Distance →
      (UpdateDistanceToGround Position world c).bCanGlide = true ∧
      (UpdateDistanceToGround Position world c).bIsGliding = c.bIsGliding ∧
      (UpdateDistanceToGround Position world c).MovementMode = c.MovementMode) ∧
    ((world Position (EndOffset Position)).Distance ≤ 20 →
      (UpdateDistanceToGround Position world c).bIsGliding = false ∧
      (UpdateDistanceToGround Position world c).MovementMode = EMovementMode.MOVE_Walking ∧
      (UpdateDistanceToGround Position world c).bCanGlide = true) := by
  refine ⟨?_, ?_, ?_⟩
  · rcases lt_or_le 20 (world Position (EndOffset Position)).Distance with hd | hd
    · rw [UpdateDistanceToGround_far Position world c hd]
      rfl
    · rw [UpdateDistanceToGround_near Position world c hd]
      rfl
  · intro hd
    rw [UpdateDistanceToGround_far Position world c hd]
    exact ⟨rfl, rfl, rfl⟩
  · intro hd
    rw [UpdateDistanceToGround_near Position world c hd]
    exact ⟨rfl, rfl, rfl⟩

/-- C3 at the distances 25, 10 and 20 on a gliding character: the glide goes on
at 25 and is stopped at 10 and at exactly 20. -/
theorem C3_update_distance_to_ground_witness :
    ((UpdateDistanceToGround ⟨0, 0, 1000⟩ (flatWorld 25) glider).DistanceToGround = 25 ∧
      (UpdateDistanceToGround ⟨0, 0, 1000⟩ (flatWorld 25) glider).bCanGlide = true ∧
      (UpdateDistanceToGround ⟨0, 0, 1000⟩ (flatWorld 25) glider).bIsGliding = true) ∧
    ((UpdateDistanceToGround ⟨0, 0, 1000⟩ (flatWorld 10) glider).bIsGliding = false ∧
      (UpdateDistanceToGround ⟨0, 0, 1000⟩ (flatWorld 10) glider).MovementMode
        = EMovementMode.MOVE_Walking) ∧
    ((UpdateDistanceToGround ⟨0, 0, 1000⟩ (flatWorld 20) glider).bIsGliding = false ∧
      (UpdateDistanceToGround ⟨0, 0, 1000⟩ (flatWorld 20) glider).MovementMode
        = EMovementMode.MOVE_Walking) := by
  have h25 := C3_update_distance_to_ground ⟨0, 0, 1000⟩ (flatWorld 25) glider
  have h10 := C3_update_distance_to_ground ⟨0, 0, 1000⟩ (flatWorld 10) glider
  have h20 := C3_update_distance_to_ground ⟨0, 0, 1000⟩ (flatWorld 20) glider
  have f25 : (20 : ℚ) < (flatWorld 25 ⟨0, 0, 1000⟩ (EndOffset ⟨0, 0, 1000⟩)).Distance := by
    simp [flatWorld]; norm_num
  have f10 : (flatWorld 10 ⟨0, 0, 1000⟩ (EndOffset ⟨0, 0, 1000⟩)).Distance ≤ 20 := by
    simp [flatWorld]; norm_num
  have f20 : (flatWorld 20 ⟨0, 0, 1000⟩ (EndOffset ⟨0, 0, 1000⟩)).Distance ≤ 20 := by
    simp [flatWorld]
  refine ⟨⟨?_, (h25.2.1 f25).1, ?_⟩, ⟨(h10.2.2 f10).1, (h10.2.2 f10).2.1⟩,
    ⟨(h20.2.2 f20).1, (h20.2.2 f20).2.1⟩⟩
  · rw [h25.1]; rfl
  · rw [(h25.2.1 f25).2.1]; rfl

/-- C4: on a character with bCanGlide true and bIsGliding false that is
falling, StartJump gives bIsGliding true and mode Flying; if the next Tick
measures a ground distance of at most 20, then after that Tick bIsGliding is
false, the mode is Walking and bCanGlide is true. -/
theorem C4_jump_then_forced_landing (c : ACGlidingCharacter) (Position : FVector)
    (world : LineTrace) (interp : Interp) (DeltaSeconds : ℚ)
    (hcan : c.bCanGlide = true) (hnot : c.bIsGliding = false) :
    (StartJump true c).bIsGliding = true ∧
    (StartJump true c).MovementMode = EMovementMode.MOVE_Flying ∧
    ((world Position (EndOffset Position)).Distance ≤ 20 →
      (Tick Position world interp DeltaSeconds (StartJump true c)).bIsGliding = false ∧
      (Tick Position world interp DeltaSeconds (StartJump true c)).MovementMode
        = EMovementMode.MOVE_Walking ∧
      (Tick Position world interp DeltaSeconds (StartJump true c)).bCanGlide = true) := by
  have hj : StartJump true c = StartGlide c := by
    simp [StartJump, ToggleGlide, hcan, hnot]
  rw [hj]
  refine ⟨rfl, rfl, ?_⟩
  intro hd
  have ht : Tick Position world interp DeltaSeconds (StartGlide c)
      = UpdateGlidingPosition interp DeltaSeconds
          (UpdateDistanceToGround Position world (StartGlide c)) := by
    simp [Tick, StartGlide]
  have hf := UpdateGlidingPosition_flags interp DeltaSeconds
    (UpdateDistanceToGround Position world (StartGlide c))
  rw [ht, hf.1, hf.2.1, hf.2.2, UpdateDistanceToGround_near Position world (StartGlide c) hd]
  exact ⟨rfl, rfl, rfl⟩

/-- C4 on the initial character, with a Tick that measures 15. -/
theorem C4_jump_then_forced_landing_witness :
    (initial ⟨0, 0, 1000⟩).bCanGlide = true ∧ (initial ⟨0, 0, 1000⟩).bIsGliding = false ∧
    (StartJump true (initial ⟨0, 0, 1000⟩)).bIsGliding = true ∧
    (StartJump true (initial ⟨0, 0, 1000⟩)).MovementMode = EMovementMode.MOVE_Flying ∧
    (Tick ⟨0, 0, 1000⟩ (flatWorld 15) VInterpTo (1 / 60)
      (StartJump true (initial ⟨0, 0, 1000⟩))).bIsGliding = false ∧
    (Tick ⟨0, 0, 1000⟩ (flatWorld 15) VInterpTo (1 / 60)
      (StartJump true (initial ⟨0, 0, 1000⟩))).MovementMode = EMovementMode.MOVE_Walking ∧
    (Tick ⟨0, 0, 1000⟩ (flatWorld 15) VInterpTo (1 / 60)
      (StartJump true (initial ⟨0, 0, 1000⟩))).bCanGlide = true := by
  have h := C4_jump_then_forced_landing (initial ⟨0, 0, 1000⟩) ⟨0, 0, 1000⟩ (flatWorld 15)
    VInterpTo (1 / 60) rfl rfl
  have f15 : (flatWorld 15 ⟨0, 0, 1000⟩ (EndOffset ⟨0, 0, 1000⟩)).Distance ≤ 20 := by
    simp [flatWorld]; norm_num
  exact ⟨rfl, rfl, h.1, h.2.1, (h.2.2 f15).1, (h.2.2 f15).2.1, (h.2.2 f15).2.2⟩

/-- C5, as stated, fails in two ways. From the origin with the default
DownwardForce 50 and a step of 1/10 s the character ends at height -25, below
where it started, while the target the claim names,
position - downVector * downwardForce, is at height +50: no factor t with
0 < t < 1 puts the new position between the old one and that target. And with
a step of 1/5 s, or with a DownwardForce of 1/256, the character lands exactly
on the target the code computes, so the target is reached in a single step. -/
theorem C5_counterexample_descends_and_lands :
    (UpdateGlidingPosition VInterpTo (1 / 10) (initial ⟨0, 0, 0⟩)).ActorLocation = ⟨0, 0, -25⟩ ∧
    SpecTarget (initial ⟨0, 0, 0⟩) = ⟨0, 0, 50⟩ ∧
    (¬ ∃ t : ℚ, 0 < t ∧ t < 1 ∧
      (UpdateGlidingPosition VInterpTo (1 / 10) (initial ⟨0, 0, 0⟩)).ActorLocation
        = (initial ⟨0, 0, 0⟩).ActorLocation
          + (SpecTarget (initial ⟨0, 0, 0⟩) - (initial ⟨0, 0, 0⟩).ActorLocation) * t) ∧
    TargetLocation (initial ⟨0, 0, 0⟩) = ⟨0, 0, -50⟩ ∧
    (UpdateGlidingPosition VInterpTo (1 / 5) (initial ⟨0, 0, 0⟩)).ActorLocation
      = TargetLocation (initial ⟨0, 0, 0⟩) ∧
    (¬ ∃ t : ℚ, 0 < t ∧ t < 1 ∧
      (UpdateGlidingPosition VInterpTo (1 / 5) (initial ⟨0, 0, 0⟩)).ActorLocation
        = (initial ⟨0, 0, 0⟩).ActorLocation
          + (TargetLocation (initial ⟨0, 0, 0⟩) - (initial ⟨0, 0, 0⟩).ActorLocation) * t) ∧
    (UpdateGlidingPosition VInterpTo (1 / 10) featherweight).ActorLocation
      = TargetLocation featherweight ∧
    TargetLocation featherweight = ⟨0, 0, -(1 / 256)⟩ := by
  have hnew : (UpdateGlidingPosition VInterpTo (1 / 10) (initial ⟨0, 0, 0⟩)).ActorLocation
      = ⟨0, 0, -25⟩ := by
    have hF : (1 : ℚ) / 10000
        ≤ (initial ⟨0, 0, 0⟩).DownwardForce * (initial ⟨0, 0, 0⟩).DownwardForce := by
      simp [initial]; norm_num
    rw [glide_step_fraction _ _ (by norm_num) hF, Clamp_inside _ (by norm_num) (by norm_num),
      part_step_eq]
    simp [initial]; norm_num
  have htgt : SpecTarget (initial ⟨0, 0, 0⟩) = ⟨0, 0, 50⟩ := by
    simp [SpecTarget, initial, FVector.DownVector, FVector.sub_def, FVector.smul_def]
  have hcode : TargetLocation (initial ⟨0, 0, 0⟩) = ⟨0, 0, -50⟩ := by
    rw [TargetLocation_eq]; simp [initial]
  have hland : (UpdateGlidingPosition VInterpTo (1 / 5) (initial ⟨0, 0, 0⟩)).ActorLocation
      = TargetLocation (initial ⟨0, 0, 0⟩) := by
    have hF : (1 : ℚ) / 10000
        ≤ (initial ⟨0, 0, 0⟩).DownwardForce * (initial ⟨0, 0, 0⟩).DownwardForce := by
      simp [initial]; norm_num
    rw [glide_step_fraction _ _ (by norm_num) hF, Clamp_above _ (by norm_num), full_step_eq]
  have hfeather : (UpdateGlidingPosition VInterpTo (1 / 10) featherweight).ActorLocation
      = TargetLocation featherweight := by
    apply glide_step_small_force _ _ (by norm_num)
    simp [featherweight, initial]; norm_num
  refine ⟨hnew, htgt, ?_, hcode, hland, ?_, hfeather, ?_⟩
  · rintro ⟨t, ht0, _, heq⟩
    rw [hnew, htgt] at heq
    simp [initial, FVector.add_def, FVector.sub_def, FVector.smul_def] at heq
    linarith
  · rintro ⟨t, _, ht1, heq⟩
    rw [hland, part_step_eq, hcode] at heq
    simp [initial] at heq
    linarith
  · rw [TargetLocation_eq]; simp [featherweight, initial]

/-- C5, amended: in exact arithmetic, for dt > 0 UpdateGlidingPosition sets the
position to p + (target - p) * t, where target = p + downVector * downwardForce
is the point DownwardForce below p and the factor t satisfies 0 < t <= 1, so x
and y are kept and the step never overshoots the target. When dt < 1/5 and the
squared DownwardForce is at least 1/10000 the factor is 5 * dt < 1; when
dt >= 1/5 or the squared DownwardForce is under 1/10000 the position is set to
the target itself. For a positive DownwardForce the new height is below the old
one and not below the target height. -/
theorem C5_glide_step_never_overshoots (c : ACGlidingCharacter) (dt : ℚ) (hdt : 0 < dt) :
    TargetLocation c = c.ActorLocation + FVector.DownVector * c.DownwardForce ∧
    (∃ t : ℚ, 0 < t ∧ t ≤ 1 ∧
      (UpdateGlidingPosition VInterpTo dt c).ActorLocation
        = c.ActorLocation + (TargetLocation c - c.ActorLocation) * t) ∧
    (1 / 10000 ≤ c.DownwardForce * c.DownwardForce → dt < 1 / 5 →
      0 < dt * 5 ∧ dt * 5 < 1 ∧
      (UpdateGlidingPosition VInterpTo dt c).ActorLocation
        = c.ActorLocation + (TargetLocation c - c.ActorLocation) * (dt * 5)) ∧
    (c.DownwardForce * c.DownwardForce < 1 / 10000 ∨ 1 / 5 ≤ dt →
      (UpdateGlidingPosition VInterpTo dt c).ActorLocation = TargetLocation c) ∧
    (UpdateGlidingPosition VInterpTo dt c).ActorLocation.X = c.ActorLocation.X ∧
    (UpdateGlidingPosition VInterpTo dt c).ActorLocation.Y = c.ActorLocation.Y ∧
    (0 < c.DownwardForce →
      (TargetLocation c).Z ≤ (UpdateGlidingPosition VInterpTo dt c).ActorLocation.Z ∧
      (UpdateGlidingPosition VInterpTo dt c).ActorLocation.Z < c.ActorLocation.Z) := by
  have hne : dt ≠ 0 := ne_of_gt hdt
  have hlands : c.DownwardForce * c.DownwardForce < 1 / 10000 ∨ 1 / 5 ≤ dt →
      (UpdateGlidingPosition VInterpTo dt c).ActorLocation = TargetLocation c := by
    intro h
    rcases lt_or_le (c.DownwardForce * c.DownwardForce) (1 / 10000) with hF | hF
    · exact glide_step_small_force c dt hne hF
    · rcases h with h | h
      · exact absurd h (not_lt.mpr hF)
      · rw [glide_step_fraction c dt hne hF, Clamp_above _ (by linarith), full_step_eq]
  have hpart : 1 / 10000 ≤ c.DownwardForce * c.DownwardForce → dt < 1 / 5 →
      0 < dt * 5 ∧ dt * 5 < 1 ∧
      (UpdateGlidingPosition VInterpTo dt c).ActorLocation
        = c.ActorLocation + (TargetLocation c - c.ActorLocation) * (dt * 5) := by
    intro hF hlt
    have h0 : 0 < dt * 5 := by linarith
    have h1 : dt * 5 < 1 := by linarith
    refine ⟨h0, h1, ?_⟩
    rw [glide_step_fraction c dt hne hF, Clamp_inside _ h0 h1]
  have hex : ∃ t : ℚ, 0 < t ∧ t ≤ 1 ∧
      (UpdateGlidingPosition VInterpTo dt c).ActorLocation
        = c.ActorLocation + (TargetLocation c - c.ActorLocation) * t := by
    by_cases hcase : c.DownwardForce * c.DownwardForce < 1 / 10000 ∨ 1 / 5 ≤ dt
    · exact ⟨1, zero_lt_one, le_refl 1, by rw [hlands hcase, full_step_eq]⟩
    · have hF : 1 / 10000 ≤ c.DownwardForce * c.DownwardForce :=
        not_lt.mp (fun h => hcase (Or.inl h))
      have hlt : dt < 1 / 5 := not_le.mp (fun h => hcase (Or.inr h))
      obtain ⟨h0, h1, heq⟩ := hpart hF hlt
      exact ⟨dt * 5, h0, le_of_lt h1, heq⟩
  obtain ⟨t, ht0, ht1, heq⟩ := hex
  refine ⟨?_, ⟨t, ht0, ht1, heq⟩, hpart, hlands, ?_, ?_, ?_⟩
  · rw [TargetLocation_eq]
    simp [FVector.DownVector, FVector.add_def, FVector.smul_def]
    ring
  · rw [heq, part_step_eq]
  · rw [heq, part_step_eq]
  · intro hF
    rw [heq, part_step_eq, TargetLocation_eq]
    constructor
    · show c.ActorLocation.Z - c.DownwardForce ≤ c.ActorLocation.Z - c.DownwardForce * t
      nlinarith
    · show c.ActorLocation.Z - c.DownwardForce * t < c.ActorLocation.Z
      nlinarith

/-- C5, amended, from the origin with DownwardForce 50: a step of 1/10 s moves
half of the way, to height -25, strictly between the target height -50 and 0;
a step of 1 s lands on the target. -/
theorem C5_glide_step_never_overshoots_witness :
    (0 : ℚ) < 1 / 10 ∧ (0 : ℚ) < 1 ∧
    (UpdateGlidingPosition VInterpTo (1 / 10) (initial ⟨0, 0, 0⟩)).ActorLocation
      = (initial ⟨0, 0, 0⟩).ActorLocation
        + (TargetLocation (initial ⟨0, 0, 0⟩) - (initial ⟨0, 0, 0⟩).ActorLocation)
          * ((1 / 10 : ℚ) * 5) ∧
    (TargetLocation (initial ⟨0, 0, 0⟩)).Z
      ≤ (UpdateGlidingPosition VInterpTo (1 / 10) (initial ⟨0, 0, 0⟩)).ActorLocation.Z ∧
    (UpdateGlidingPosition VInterpTo (1 / 10) (initial ⟨0, 0, 0⟩)).ActorLocation.Z
      < (initial ⟨0, 0, 0⟩).ActorLocation.Z ∧
    (UpdateGlidingPosition VInterpTo 1 (initial ⟨0, 0, 0⟩)).ActorLocation
      = TargetLocation (initial ⟨0, 0, 0⟩) := by
  have hstep := C5_glide_step_never_overshoots (initial ⟨0, 0, 0⟩) (1 / 10) (by norm_num)
  have hfull := C5_glide_step_never_overshoots (initial ⟨0, 0, 0⟩) 1 (by norm_num)
  have hF : (1 : ℚ) / 10000
      ≤ (initial ⟨0, 0, 0⟩).DownwardForce * (initial ⟨0, 0, 0⟩).DownwardForce := by
    simp [initial]; norm_num
  have hpos : (0 : ℚ) < (initial ⟨0, 0, 0⟩).DownwardForce := by
    simp [initial]
  have hdown := hstep.2.2.2.2.2.2 hpos
  exact ⟨by norm_num, by norm_num, (hstep.2.2.1 hF (by norm_num)).2.2, hdown.1, hdown.2,
    hfull.2.2.2.1 (Or.inr (by norm_num))⟩

/-- C6, as stated, fails: on a gliding character a trace that hits nothing,
leaving the zeroed Distance of an empty hit result, makes UpdateDistanceToGround
and Tick stop the glide: bIsGliding false and mode Walking afterwards. -/
theorem C6_counterexample_empty_trace_stops_glide :
    glider.bIsGliding = true ∧ glider.MovementMode = EMovementMode.MOVE_Flying ∧
    (emptyWorld ⟨0, 0, 1000⟩ (EndOffset ⟨0, 0, 1000⟩)).bBlockingHit = false ∧
    (UpdateDistanceToGround ⟨0, 0, 1000⟩ emptyWorld glider).bIsGliding = false ∧
    (UpdateDistanceToGround ⟨0, 0, 1000⟩ emptyWorld glider).MovementMode
      = EMovementMode.MOVE_Walking ∧
    (Tick ⟨0, 0, 1000⟩ emptyWorld VInterpTo (1 / 60) glider).bIsGliding = false ∧
    (Tick ⟨0, 0, 1000⟩ emptyWorld VInterpTo (1 / 60) glider).MovementMode
      = EMovementMode.MOVE_Walking := by
  have hd : (emptyWorld ⟨0, 0, 1000⟩ (EndOffset ⟨0, 0, 1000⟩)).Distance ≤ 20 := by
    simp [emptyWorld]
  have hu := UpdateDistanceToGround_near ⟨0, 0, 1000⟩ emptyWorld glider hd
  have ht : Tick ⟨0, 0, 1000⟩ emptyWorld VInterpTo (1 / 60) glider
      = UpdateGlidingPosition VInterpTo (1 / 60)
          (UpdateDistanceToGround ⟨0, 0, 1000⟩ emptyWorld glider) := by
    simp [Tick, glider, StartGlide]
  have hf := UpdateGlidingPosition_flags VInterpTo (1 / 60)
    (UpdateDistanceToGround ⟨0, 0, 1000⟩ emptyWorld glider)
  refine ⟨rfl, rfl, rfl, ?_, ?_, ?_, ?_⟩
  · rw [hu]; rfl
  · rw [hu]; rfl
  · rw [ht, hf.1, hu]; rfl
  · rw [ht, hf.2.2, hu]; rfl

/-- C6, amended: the code never looks at whether the trace hit. On a gliding
character in mode Flying, after UpdateDistanceToGround and after Tick the glide
goes on (bIsGliding true, mode Flying, bCanGlide true) exactly when the
Distance field of the hit result is above 20, whether or not anything was hit;
otherwise the glide is stopped. -/
theorem C6_glide_continues_iff_distance_above_20 (c : ACGlidingCharacter)
    (Position : FVector) (world : LineTrace) (interp : Interp) (DeltaSeconds : ℚ)
    (hglide : c.bIsGliding = true) (hfly : c.MovementMode = EMovementMode.MOVE_Flying) :
    (((UpdateDistanceToGround Position world c).bIsGliding = true ∧
      (UpdateDistanceToGround Position world c).MovementMode = EMovementMode.MOVE_Flying ∧
      (UpdateDistanceToGround Position world c).bCanGlide = true)
        ↔ 20 < (world Position (EndOffset Position)).Distance) ∧
    (((Tick Position world interp DeltaSeconds c).bIsGliding = true ∧
      (Tick Position world interp DeltaSeconds c).MovementMode = EMovementMode.MOVE_Flying ∧
      (Tick Position world interp DeltaSeconds c).bCanGlide = true)
        ↔ 20 < (world Position (EndOffset Position)).Distance) ∧
    (¬ 20 < (world Position (EndOffset Position)).Distance →
      (Tick Position world interp DeltaSeconds c).bIsGliding = false ∧
      (Tick Position world interp DeltaSeconds c).MovementMode = EMovementMode.MOVE_Walking ∧
      (Tick Position world interp DeltaSeconds c).bCanGlide = true) ∧
    (¬ 20 < (world Position (EndOffset Position)).Distance →
      (UpdateDistanceToGround Position world c).bIsGliding = false ∧
      (UpdateDistanceToGround Position world c).MovementMode = EMovementMode.MOVE_Walking ∧
      (UpdateDistanceToGround Position world c).bCanGlide = true) := by
  have ht : Tick Position world interp DeltaSeconds c
      = UpdateGlidingPosition interp DeltaSeconds (UpdateDistanceToGround Position world c) := by
    simp [Tick, hglide]
  have hf := UpdateGlidingPosition_flags interp DeltaSeconds
    (UpdateDistanceToGround Position world c)
  rw [ht, hf.1, hf.2.1, hf.2.2]
  rcases lt_or_le 20 (world Position (EndOffset Position)).Distance with hd | hd
  · rw [UpdateDistanceToGround_far Position world c hd]
    have h1 : (CalculateDistanceToGround Position world c).bIsGliding = true := hglide
    have h2 : (CalculateDistanceToGround Position world c).MovementMode
        = EMovementMode.MOVE_Flying := hfly
    simp [h1, h2, hd]
  · rw [UpdateDistanceToGround_near Position world c hd]
    have hn : ¬ 20 < (world Position (EndOffset Position)).Distance := not_lt.mpr hd
    simp [StopGlide, hn]

/-- C6, amended, on a gliding character: an empty trace (Distance 0) stops the
glide in Tick. -/
theorem C6_glide_continues_iff_distance_above_20_witness :
    glider.bIsGliding = true ∧ glider.MovementMode = EMovementMode.MOVE_Flying ∧
    (Tick ⟨0, 0, 1000⟩ emptyWorld VInterpTo (1 / 60) glider).bIsGliding = false ∧
    (Tick ⟨0, 0, 1000⟩ emptyWorld VInterpTo (1 / 60) glider).MovementMode
      = EMovementMode.MOVE_Walking ∧
    (Tick ⟨0, 0, 1000⟩ emptyWorld VInterpTo (1 / 60) glider).bCanGlide = true := by
  have h := C6_glide_continues_iff_distance_above_20 glider ⟨0, 0, 1000⟩ emptyWorld VInterpTo
    (1 / 60) rfl rfl
  have hn : ¬ (20 : ℚ) < (emptyWorld ⟨0, 0, 1000⟩ (EndOffset ⟨0, 0, 1000⟩)).Distance := by
    simp [emptyWorld]
  exact ⟨rfl, rfl, h.2.2.1 hn⟩

/-- C7: UpdateGlidingPosition with a delta time of 0 leaves the character
exactly as it was, whatever the interpolation routine: the position is the one
it had before the call and no glide field changes. -/
theorem C7_zero_delta_time_changes_nothing (interp : Interp) (c : ACGlidingCharacter) :
    UpdateGlidingPosition interp 0 c = c ∧
    (UpdateGlidingPosition interp 0 c).ActorLocation = c.ActorLocation ∧
    (UpdateGlidingPosition interp 0 c).bIsGliding = c.bIsGliding ∧
    (UpdateGlidingPosition interp 0 c).bCanGlide = c.bCanGlide ∧
    (UpdateGlidingPosition interp 0 c).DistanceToGround = c.DistanceToGround ∧
    (UpdateGlidingPosition interp 0 c).MovementMode = c.MovementMode := by
  have h : UpdateGlidingPosition interp 0 c = c := by
    simp [UpdateGlidingPosition]
  rw [h]
  exact ⟨rfl, rfl, rfl, rfl, rfl, rfl⟩

/-- C8: on a character that is not gliding, Tick issues no line trace and
leaves DistanceToGround, bCanGlide, bIsGliding, the movement mode and the
position unchanged, for every delta time. -/
theorem C8_tick_when_not_gliding (c : ACGlidingCharacter) (Position : FVector)
    (world : LineTrace) (interp : Interp) (DeltaSeconds : ℚ) (hnot : c.bIsGliding = false) :
    (Tick Position world interp DeltaSeconds c).LineTraces = c.LineTraces ∧
    (Tick Position world interp DeltaSeconds c).DistanceToGround = c.DistanceToGround ∧
    (Tick Position world interp DeltaSeconds c).bCanGlide = c.bCanGlide ∧
    (Tick Position world interp DeltaSeconds c).bIsGliding = c.bIsGliding ∧
    (Tick Position world interp DeltaSeconds c).MovementMode = c.MovementMode ∧
    (Tick Position world interp DeltaSeconds c).ActorLocation = c.ActorLocation ∧
    Tick Position world interp DeltaSeconds c = c := by
  have h : Tick Position world interp DeltaSeconds c = c := by
    simp [Tick, hnot]
  rw [h]
  exact ⟨rfl, rfl, rfl, rfl, rfl, rfl, rfl⟩

/-- C8 on the initial character, in a world whose probe would report 5. -/
theorem C8_tick_when_not_gliding_witness :
    (initial ⟨7, 8, 9⟩).bIsGliding = false ∧
    (Tick ⟨7, 8, 9⟩ (flatWorld 5) VInterpTo (1 / 60) (initial ⟨7, 8, 9⟩)).LineTraces = [] ∧
    (Tick ⟨7, 8, 9⟩ (flatWorld 5) VInterpTo (1 / 60) (initial ⟨7, 8, 9⟩)).DistanceToGround = 0 ∧
    Tick ⟨7, 8, 9⟩ (flatWorld 5) VInterpTo (1 / 60) (initial ⟨7, 8, 9⟩) = initial ⟨7, 8, 9⟩ := by
  have h := C8_tick_when_not_gliding (initial ⟨7, 8, 9⟩) ⟨7, 8, 9⟩ (flatWorld 5) VInterpTo
    (1 / 60) rfl
  refine ⟨rfl, ?_, ?_, h.2.2.2.2.2.2⟩
  · rw [h.1]; rfl
  · rw [h.2.1]; rfl

/-- C9 fails on the code: from the probe origin (100, 200, 300) the one trace
issued by CalculateDistanceToGround starts at the origin and ends at
(0, 0, -600000), whose x and y are not those of the origin; and from the origin
(0, 0, -1) the trace end (0, 0, 2000) is above the origin, not below it. -/
theorem C9_trace_end_is_not_below_origin :
    (CalculateDistanceToGround ⟨100, 200, 300⟩ emptyWorld (initial ⟨100, 200, 300⟩)).LineTraces
      = [(⟨100, 200, 300⟩, ⟨0, 0, -600000⟩)] ∧
    (⟨0, 0, -600000⟩ : FVector).X ≠ (⟨100, 200, 300⟩ : FVector).X ∧
    (⟨0, 0, -600000⟩ : FVector).Y ≠ (⟨100, 200, 300⟩ : FVector).Y ∧
    EndOffset ⟨0, 0, -1⟩ = ⟨0, 0, 2000⟩ ∧
    ¬ (EndOffset ⟨0, 0, -1⟩).Z < (⟨0, 0, -1⟩ : FVector).Z := by
  have h1 : EndOffset ⟨100, 200, 300⟩ = ⟨0, 0, -600000⟩ := by
    rw [EndOffset_eq]; norm_num
  have h2 : EndOffset ⟨0, 0, -1⟩ = ⟨0, 0, 2000⟩ := by
    rw [EndOffset_eq]; norm_num
  refine ⟨?_, by norm_num, by norm_num, h2, ?_⟩
  · simp [CalculateDistanceToGround, initial, h1]
  · rw [h2]; norm_num

/-- C10: in every state reached from the initial state by a finite sequence of
ToggleGlide, StartGlide, StopGlide, StartJump, StopJump, UpdateDistanceToGround
and Tick calls, bCanGlide is true; and there ToggleGlide acts as StartGlide
exactly when bIsGliding is false and as StopGlide exactly when bIsGliding is
true. -/
theorem C10_can_glide_always_true (Location : FVector) (ops : List Op) :
    (run (initial Location) ops).bCanGlide = true ∧
    (ToggleGlide (run (initial Location) ops) = StartGlide (run (initial Location) ops)
      ↔ (run (initial Location) ops).bIsGliding = false) ∧
    (ToggleGlide (run (initial Location) ops) = StopGlide (run (initial Location) ops)
      ↔ (run (initial Location) ops).bIsGliding = true) := by
  have hc : (run (initial Location) ops).bCanGlide = true :=
    run_bCanGlide ops (initial Location) rfl
  generalize run (initial Location) ops = c at hc ⊢
  have hne : StartGlide c ≠ StopGlide c := by
    intro h
    have h2 := congrArg ACGlidingCharacter.bIsGliding h
    simp [StartGlide, StopGlide] at h2
  refine ⟨hc, ?_, ?_⟩
  · cases hg : c.bIsGliding with
    | true =>
      have ht : ToggleGlide c = StopGlide c := by simp [ToggleGlide, hg]
      rw [ht]
      simp
      exact fun h => hne h.symm
    | false =>
      have ht : ToggleGlide c = StartGlide c := by simp [ToggleGlide, hg, hc]
      rw [ht]
      simp
  · cases hg : c.bIsGliding with
    | true =>
      have ht : ToggleGlide c = StopGlide c := by simp [ToggleGlide, hg]
      rw [ht]
      simp
    | false =>
      have ht : ToggleGlide c = StartGlide c := by simp [ToggleGlide, hg, hc]
      rw [ht]
      simp
      exact hne

end CGliding
